import Mathlib

/-!
# Shallow embedding of `examples/01-cubes/cubes.cpp`

The example owns one shader program, one dynamic vertex buffer (4 vertices) and one
dynamic index buffer (6 indices).  Every frame `update` draws two rectangles through
`render_rect`, which overwrites both buffers and submits one draw call.

* The calls the example makes into the rendering library are embedded as an ordered
  command trace (`Cmd`): `render_rect` and `update` return the commands they issue,
  in program order.
* The coordinate type of a vertex is a parameter `α` with an addition.  `F32` is the
  `float` of the source: IEEE 754 binary32 with round-to-nearest-even addition,
  infinities and NaN.  Where every sum is exact in binary32 (the arguments `update`
  passes), statements are also given over the rationals `ℚ`.
* Unsigned machine integers are `Nat`; the one narrowing conversion of the source,
  `uint16_t(m_width)`, is an explicit `% 2 ^ 16`.
* Constants of the library headers that are not part of the example are collected in
  the parameter record `Defines`.
-/

namespace Cubes

/-! ## Data model -/

/-- A library handle (`ProgramHandle`, `DynamicVertexBufferHandle`,
`DynamicIndexBufferHandle`): an index into the table of the library. -/
abbrev Handle := Nat

/-- The struct `PosColorVertex` (cubes.cpp:13-29): two coordinates and a packed
32-bit colour. -/
structure PosColorVertex (α : Type) where
  m_x : α
  m_y : α
  m_abgr : Nat
deriving DecidableEq, Repr

/-- Value of `sizeof(float)`. -/
def sizeof_float : Nat := 4

/-- Value of `sizeof(uint32_t)`. -/
def sizeof_uint32_t : Nat := 4

/-- Value of `sizeof(uint16_t)`. -/
def sizeof_uint16_t : Nat := 2

/-- Value of `sizeof(PosColorVertex)`: two floats and one `uint32_t`, all 4-byte
aligned, hence without padding. -/
def sizeof_PosColorVertex : Nat := sizeof_float + sizeof_float + sizeof_uint32_t

/-- The macro `COLOR_RED` (cubes.cpp:33). -/
def COLOR_RED : Nat := 0xff0000ff

/-- The macro `COLOR_BLUE` (cubes.cpp:34). -/
def COLOR_BLUE : Nat := 0xffff0000

/-- Vertex attributes used by the example (`bgfx::Attrib`). -/
inductive Attrib where
  | Position
  | Color0
deriving DecidableEq, Repr

/-- Attribute component types used by the example (`bgfx::AttribType`). -/
inductive AttribType where
  | Uint8
  | Float
deriving DecidableEq, Repr

/-- Modelled from the spec: the byte size of one component of an attribute type
(the size table of `bgfx::VertexLayout` is not under src/); the spec's layout is
"2-float + 4-uint8", 12 bytes, so a float takes 4 bytes and a uint8 takes 1. -/
def AttribType.size : AttribType → Nat
  | .Uint8 => 1
  | .Float => 4

/-- One declared attribute of a vertex layout, with its byte offset. -/
structure LayoutAttrib where
  attrib : Attrib
  num : Nat
  type : AttribType
  normalized : Bool
  offset : Nat
deriving DecidableEq, Repr

/-- Modelled from the spec: `bgfx::VertexLayout` (not under src/), the declared
attributes and the stride in bytes of one vertex. -/
structure VertexLayout where
  stride : Nat
  attribs : List LayoutAttrib
deriving DecidableEq, Repr

/-- Modelled from the spec: `VertexLayout::begin` (not under src/) starts an empty
layout. -/
def VertexLayout.begin : VertexLayout := ⟨0, []⟩

/-- Modelled from the spec: `VertexLayout::add` (not under src/) appends an attribute
at the current stride and grows the stride by `num` components of the given type. -/
def VertexLayout.add (l : VertexLayout) (a : Attrib) (num : Nat) (t : AttribType)
    (normalized : Bool) : VertexLayout :=
  ⟨l.stride + num * t.size, l.attribs ++ [⟨a, num, t, normalized, l.stride⟩]⟩

/-- Modelled from the spec: `VertexLayout::end` (not under src/) closes the layout. -/
def VertexLayout.end_ (l : VertexLayout) : VertexLayout := l

/-- The function `PosColorVertex::init` (cubes.cpp:19-26): the value it stores in
`ms_layout`. -/
def PosColorVertex.init : VertexLayout :=
  ((VertexLayout.begin.add Attrib.Position 2 AttribType.Float false).add
    Attrib.Color0 4 AttribType.Uint8 true).end_

/-- A block of memory handed to the library (`bgfx::Memory`): the array it was copied
from and the number of bytes copied. -/
structure Memory (ε : Type) where
  data : List ε
  size : Nat
deriving DecidableEq, Repr

/-- The call `bgfx::copy(data, size)`. -/
def bgfx.copy {ε : Type} (data : List ε) (size : Nat) : Memory ε := ⟨data, size⟩

/-! ## The type `float` -/

/-- The C++ type `float`, taken as IEEE 754 binary32.  A finite value is an integer
multiple `k` of `2 ^ (-149)`, the smallest subnormal; it is a binary32 value when `k`
has at most 24 significant bits and `|k| < 2 ^ 277`.  The sign of zero is not kept. -/
inductive F32 where
  | finite (k : Int)
  | inf (negative : Bool)
  | nan
deriving DecidableEq, Repr

/-- The integer that stands for `1.0f`. -/
def F32.unit : Int := ((2 ^ 149 : Nat) : Int)

/-- The number of low bits of `a` beyond its 24 most significant ones (`fuel` bounds
the search; `a` itself always suffices). -/
def F32.excess : Nat → Nat → Nat
  | 0, _ => 0
  | fuel + 1, a => if a < 2 ^ 24 then 0 else F32.excess fuel (a / 2) + 1

/-- Rounding of a magnitude to 24 significant bits, to nearest, ties to the even
significand.  Magnitudes below `2 ^ 24` (subnormals and the first binade) are exact. -/
def F32.roundNat (a : Nat) : Nat :=
  let s := F32.excess a a
  let q := a / 2 ^ s
  let r := a % 2 ^ s
  (if 2 ^ s < 2 * r ∨ (2 * r = 2 ^ s ∧ q % 2 = 1) then q + 1 else q) * 2 ^ s

/-- Rounding of an exact result to binary32: to nearest, ties to even; a rounded
magnitude of `2 ^ 128` or more overflows to the infinity of the same sign. -/
def F32.round (n : Int) : F32 :=
  if 2 ^ 128 * 2 ^ 149 ≤ F32.roundNat n.natAbs then F32.inf (decide (n < 0))
  else F32.finite (if n < 0 then -(F32.roundNat n.natAbs : Int) else F32.roundNat n.natAbs)

/-- The operator `+` on `float`: the exact sum, rounded once. -/
def F32.add : F32 → F32 → F32
  | .nan, _ => .nan
  | _, .nan => .nan
  | .inf a, .inf b => if a = b then .inf a else .nan
  | .inf a, .finite _ => .inf a
  | .finite _, .inf b => .inf b
  | .finite a, .finite b => F32.round (a + b)

instance : Add F32 := ⟨F32.add⟩

/-- The conversion of an integer to `float`. -/
def F32.ofInt (n : Int) : F32 := F32.round (n * F32.unit)

instance : NatCast F32 := ⟨fun n => F32.ofInt n⟩

/-- The real number a `float` stands for (`0` for the infinities and NaN). -/
def F32.value : F32 → ℚ
  | .finite k => (k : ℚ) / 2 ^ 149
  | _ => 0

/-- A 4x4 matrix as the example builds it: `bx::mtxIdentity` or `bx::mtxOrtho` with
its `float` arguments (the entries are not computed). -/
inductive Mtx where
  | identity
  | ortho (left right bottom top near far offset : F32) (homogeneousNdc : Bool)
deriving DecidableEq, Repr

/-- The calls the example makes into the rendering library and the debug UI inside
`update` and `render_rect`, one constructor per called function. -/
inductive Cmd (α : Type) where
  | imguiBeginFrame (mx my : Int) (button : Nat) (scroll : Int) (width height : Nat)
  | showExampleDialog
  | imguiEndFrame
  | touch (id : Nat)
  | setViewTransform (id : Nat) (view proj : Mtx)
  | setViewRect (id x y width height : Nat)
  | updateVertexBuffer (handle : Handle) (startVertex : Nat)
      (mem : Memory (PosColorVertex α))
  | updateIndexBuffer (handle : Handle) (startIndex : Nat) (mem : Memory Nat)
  | setVertexBuffer (stream : Nat) (handle : Handle)
  | setIndexBuffer (handle : Handle)
  | setState (state : Nat)
  | submit (id : Nat) (program : Handle)
  | frame
deriving DecidableEq, Repr

/-- Mouse buttons of the platform layer (`entry::MouseButton`). -/
inductive MouseButton where
  | None
  | Left
  | Middle
  | Right
deriving DecidableEq, Repr

/-- The struct `entry::MouseState`. -/
structure MouseState where
  m_mx : Int
  m_my : Int
  m_mz : Int
  m_buttons : MouseButton → Nat

/-- Constants of the library headers the example uses; their values are not under
src/ and are taken as parameters. -/
structure Defines where
  BGFX_DEBUG_NONE : Nat
  BGFX_RESET_VSYNC : Nat
  BGFX_CLEAR_COLOR : Nat
  BGFX_CLEAR_DEPTH : Nat
  BGFX_STATE_WRITE_RGB : Nat
  BGFX_STATE_WRITE_A : Nat
  BGFX_STATE_BLEND_ALPHA : Nat
  BGFX_STATE_DEFAULT : Nat
  IMGUI_MBUT_LEFT : Nat
  IMGUI_MBUT_RIGHT : Nat
  IMGUI_MBUT_MIDDLE : Nat

/-- The member variables of `class ExampleCubes` (cubes.cpp:172-181). -/
structure ExampleCubes where
  m_mouseState : MouseState
  m_width : Nat
  m_height : Nat
  m_debug : Nat
  m_reset : Nat
  m_program : Handle
  m_vbh : Handle
  m_ibh : Handle

/-- What one call of `entry::processEvents` (platform layer, not under src/) leaves
behind: its return value (`true` asks the application to exit) and the values of the
five objects it receives by reference. -/
structure ProcessEvents where
  exit : Bool
  width : Nat
  height : Nat
  debug : Nat
  reset : Nat
  mouseState : MouseState

/-- The conversion `uint16_t(n)`. -/
def uint16_t (n : Nat) : Nat := n % 2 ^ 16

/-! ## The example's operations -/

/-- The method `ExampleCubes::render_rect` (cubes.cpp:102-125): the object after the
call and the library calls it makes, in order. -/
def render_rect {α : Type} [Add α] (K : Defines) (self : ExampleCubes)
    (x y w h : α) (color : Nat) : ExampleCubes × List (Cmd α) :=
  let v : List (PosColorVertex α) :=
    [ ⟨x, y, color⟩
    , ⟨x + w, y, color⟩
    , ⟨x + w, y + h, color⟩
    , ⟨x, y + h, color⟩ ]
  let indices : List Nat := [0, 1, 2, 2, 3, 0]
  (self,
    [ Cmd.updateVertexBuffer self.m_vbh 0 (bgfx.copy v (4 * sizeof_PosColorVertex))
    , Cmd.updateIndexBuffer self.m_ibh 0 (bgfx.copy indices (6 * sizeof_uint16_t))
    , Cmd.setVertexBuffer 0 self.m_vbh
    , Cmd.setIndexBuffer self.m_ibh
    , Cmd.setState
        (K.BGFX_STATE_WRITE_RGB ||| K.BGFX_STATE_WRITE_A ||| K.BGFX_STATE_BLEND_ALPHA)
    , Cmd.submit 0 self.m_program ])

/-- The object after the call `entry::processEvents(m_width, m_height, m_debug,
m_reset, &m_mouseState)` of cubes.cpp:129, which writes through its five arguments. -/
def ExampleCubes.afterEvents (self : ExampleCubes) (ev : ProcessEvents) : ExampleCubes :=
  { self with
    m_width := ev.width, m_height := ev.height, m_debug := ev.debug,
    m_reset := ev.reset, m_mouseState := ev.mouseState }

/-- The calls of `update` before the first rectangle (cubes.cpp:131-155): the debug
UI frame, `touch`, and the view transform and rectangle.  `homogeneousDepth` is the
value of `bgfx::getCaps()->homogeneousDepth`. -/
def beginFrame {α : Type} (K : Defines) (homogeneousDepth : Bool) (self : ExampleCubes) :
    List (Cmd α) :=
  [ Cmd.imguiBeginFrame self.m_mouseState.m_mx self.m_mouseState.m_my
      ((if self.m_mouseState.m_buttons MouseButton.Left ≠ 0 then K.IMGUI_MBUT_LEFT else 0)
        ||| (if self.m_mouseState.m_buttons MouseButton.Right ≠ 0
          then K.IMGUI_MBUT_RIGHT else 0)
        ||| (if self.m_mouseState.m_buttons MouseButton.Middle ≠ 0
          then K.IMGUI_MBUT_MIDDLE else 0))
      self.m_mouseState.m_mz (uint16_t self.m_width) (uint16_t self.m_height)
  , Cmd.showExampleDialog
  , Cmd.imguiEndFrame
  , Cmd.touch 0
  , Cmd.setViewTransform 0 Mtx.identity
      (Mtx.ortho (F32.ofInt 0) (F32.ofInt self.m_width) (F32.ofInt 0)
        (F32.ofInt self.m_height) (F32.ofInt (-1)) (F32.ofInt 1) (F32.ofInt 0)
        homogeneousDepth)
  , Cmd.setViewRect 0 0 0 (uint16_t self.m_width) (uint16_t self.m_height) ]

/-- The method `ExampleCubes::update` (cubes.cpp:127-170): its return value, the
object after the call and the library calls made by its body, in order.  `ev` is the
outcome of `entry::processEvents`. -/
def update {α : Type} [Add α] [NatCast α] (K : Defines) (homogeneousDepth : Bool)
    (self : ExampleCubes) (ev : ProcessEvents) : Bool × ExampleCubes × List (Cmd α) :=
  let self := self.afterEvents ev
  if !ev.exit then
    let r1 := render_rect K self ((100 : Nat) : α) ((100 : Nat) : α)
      ((200 : Nat) : α) ((200 : Nat) : α) COLOR_RED
    let r2 := render_rect K r1.1 ((400 : Nat) : α) ((400 : Nat) : α)
      ((200 : Nat) : α) ((200 : Nat) : α) COLOR_BLUE
    (true, r2.1, beginFrame K homogeneousDepth self ++ r1.2 ++ r2.2 ++ [Cmd.frame])
  else
    (false, self, [])

/-! ## Reading a command trace -/

/-- Is the command a call of `bgfx::submit`? -/
def Cmd.isSubmit {α : Type} : Cmd α → Bool
  | .submit _ _ => true
  | _ => false

/-- Is the command a call of `bgfx::frame`? -/
def Cmd.isFrame {α : Type} : Cmd α → Bool
  | .frame => true
  | _ => false

/-- Is the command a call of `bgfx::update` on a vertex or an index buffer? -/
def Cmd.isBufferUpdate {α : Type} : Cmd α → Bool
  | .updateVertexBuffer _ _ _ => true
  | .updateIndexBuffer _ _ _ => true
  | _ => false

/-- The vertex-buffer updates of a trace, in order: handle, start vertex, memory. -/
def vertexUpdates {α : Type} : List (Cmd α) → List (Handle × Nat × Memory (PosColorVertex α))
  | [] => []
  | .updateVertexBuffer hd s m :: cs => (hd, s, m) :: vertexUpdates cs
  | _ :: cs => vertexUpdates cs

/-- The index-buffer updates of a trace, in order: handle, start index, memory. -/
def indexUpdates {α : Type} : List (Cmd α) → List (Handle × Nat × Memory Nat)
  | [] => []
  | .updateIndexBuffer hd s m :: cs => (hd, s, m) :: indexUpdates cs
  | _ :: cs => indexUpdates cs

/-! ## The rendering library

The library itself is not part of the example.  The model below keeps what the
example can observe of it: programs and buffers are created and named by handle, a
dynamic buffer is a fixed number of slots updated in place, the bindings and the
render state set before a `submit` make up the queued draw call, a `submit` captures
the contents of the bound buffers, and `frame` executes the queue. -/

/-- Modelled from the spec: a dynamic vertex buffer of the library (not under src/),
"a retained memory region ... updatable in place": the stride of its layout and one
slot per vertex of its capacity, `none` while never written. -/
structure DynamicVertexBuffer (α : Type) where
  stride : Nat
  slots : List (Option (PosColorVertex α))
deriving DecidableEq, Repr

/-- Modelled from the spec: a dynamic index buffer of 16-bit indices of the library
(not under src/): one slot per index of its capacity. -/
structure DynamicIndexBuffer where
  slots : List (Option Nat)
deriving DecidableEq, Repr

/-- Capacity of a vertex buffer, in vertices. -/
def DynamicVertexBuffer.capacity {α : Type} (b : DynamicVertexBuffer α) : Nat :=
  b.slots.length

/-- Capacity of an index buffer, in indices. -/
def DynamicIndexBuffer.capacity (b : DynamicIndexBuffer) : Nat := b.slots.length

/-- Modelled from the spec: the in-place write of a buffer update ("contents are
overwritten, never resized"): element `i` of the block goes to slot `start + i`;
what falls beyond the last slot is dropped. -/
def writeAt {ε : Type} (slots : List (Option ε)) (start : Nat) : List ε → List (Option ε)
  | [] => slots
  | e :: es => writeAt (slots.set start (some e)) (start + 1) es

/-- The bindings and render state of the draw call being assembled. -/
structure DrawState where
  streams : List (Nat × Handle)
  indexBuffer : Option Handle
  state : Nat
deriving DecidableEq, Repr

/-- A queued draw submission: "a request to the rendering library to execute one draw
call with currently bound buffers, program, and state". -/
structure DrawCall where
  id : Nat
  program : Handle
  draw : DrawState
deriving DecidableEq, Repr

/-- A draw call together with the buffer contents it is drawn with. -/
structure RenderedDraw (α : Type) where
  call : DrawCall
  vertices : Option (List (Option (PosColorVertex α)))
  indices : Option (List (Option Nat))
deriving DecidableEq, Repr

/-- Modelled from the spec: the state of the rendering library (not under src/) as
far as the example drives it. -/
structure Device (α : Type) where
  debug : Nat
  viewClear : List (Nat × Nat × Nat × Int × Nat)
  programs : List (String × String)
  dvbs : List (DynamicVertexBuffer α)
  dibs : List DynamicIndexBuffer
  touched : List Nat
  draw : DrawState
  queue : List DrawCall
  captured : List (RenderedDraw α)
  presented : List (List (RenderedDraw α))
  imgui : Bool
deriving DecidableEq, Repr

/-- Modelled from the spec: `bgfx::init` (not under src/) gives a library state with
no program, no buffer and nothing queued. -/
def bgfx.init {α : Type} (K : Defines) : Device α :=
  { debug := 0, viewClear := [], programs := [], dvbs := [], dibs := [], touched := [],
    draw := ⟨[], none, K.BGFX_STATE_DEFAULT⟩, queue := [], captured := [],
    presented := [],
    imgui := false }

/-- Modelled from the spec: `loadProgram` (not under src/) creates one program and
returns its handle. -/
def Device.loadProgram {α : Type} (d : Device α) (vs fs : String) : Handle × Device α :=
  (d.programs.length, { d with programs := d.programs ++ [(vs, fs)] })

/-- Modelled from the spec: `bgfx::createDynamicVertexBuffer(num, layout)` (not under
src/) creates a buffer of `num` vertices of the given layout and returns its handle. -/
def Device.createDynamicVertexBuffer {α : Type} (d : Device α) (num : Nat)
    (layout : VertexLayout) : Handle × Device α :=
  (d.dvbs.length, { d with dvbs := d.dvbs ++ [⟨layout.stride, List.replicate num none⟩] })

/-- Modelled from the spec: `bgfx::createDynamicIndexBuffer(num)` (not under src/)
creates a buffer of `num` 16-bit indices and returns its handle. -/
def Device.createDynamicIndexBuffer {α : Type} (d : Device α) (num : Nat) :
    Handle × Device α :=
  (d.dibs.length, { d with dibs := d.dibs ++ [⟨List.replicate num none⟩] })

/-- Modelled from the spec: `bgfx::update` on a dynamic vertex buffer (not under
src/): the block holds `size / stride` vertices, written in place from
`startVertex`; the capacity is left as it is. -/
def Device.updateVertexBuffer {α : Type} (d : Device α) (hd : Handle) (startVertex : Nat)
    (mem : Memory (PosColorVertex α)) : Device α :=
  match d.dvbs[hd]? with
  | none => d
  | some b =>
    { d with dvbs := d.dvbs.set hd (DynamicVertexBuffer.mk b.stride
        (writeAt b.slots startVertex (mem.data.take (mem.size / b.stride)))) }

/-- Modelled from the spec: `bgfx::update` on a dynamic index buffer (not under
src/): the block holds `size / 2` indices, written in place from `startIndex`. -/
def Device.updateIndexBuffer {α : Type} (d : Device α) (hd : Handle) (startIndex : Nat)
    (mem : Memory Nat) : Device α :=
  match d.dibs[hd]? with
  | none => d
  | some b =>
    { d with dibs := d.dibs.set hd (DynamicIndexBuffer.mk
        (writeAt b.slots startIndex (mem.data.take (mem.size / sizeof_uint16_t)))) }

/-- The buffer contents a draw call has on a given library state: the contents, in
that state, of the vertex buffer bound on stream 0 and of the bound index buffer. -/
def Device.resolve {α : Type} (d : Device α) (c : DrawCall) : RenderedDraw α :=
  { call := c
    vertices := (c.draw.streams.lookup 0).bind fun hd => (d.dvbs[hd]?).map (·.slots)
    indices := c.draw.indexBuffer.bind fun hd => (d.dibs[hd]?).map (·.slots) }

/-- Modelled from the spec: `bgfx::submit(id, program)` (not under src/) queues one
draw call made of the current bindings and state, and starts a new draw call;
"submission captures current bound-buffer state at call time, not deferred", so the
contents the bound buffers have at the call are recorded with it. -/
def Device.submit {α : Type} (K : Defines) (d : Device α) (id : Nat) (program : Handle) :
    Device α :=
  { d with queue := d.queue ++ [⟨id, program, d.draw⟩],
           captured := d.captured ++ [d.resolve ⟨id, program, d.draw⟩],
           draw := ⟨[], none, K.BGFX_STATE_DEFAULT⟩ }

/-- Modelled from the spec: `bgfx::frame` (not under src/), the "per-frame
present/flush call": the queued draw calls are executed, each with the contents
captured at its submission, and the queue is emptied. -/
def Device.frame {α : Type} (d : Device α) : Device α :=
  { d with presented := d.presented ++ [d.captured], queue := [], captured := [] }

/-- The effect of one library call on the library state.  View set-up and the debug
UI calls do not reach the buffers or the draw queue. -/
def Device.exec {α : Type} (K : Defines) (d : Device α) : Cmd α → Device α
  | .imguiBeginFrame _ _ _ _ _ _ => d
  | .showExampleDialog => d
  | .imguiEndFrame => d
  | .touch id => { d with touched := d.touched ++ [id] }
  | .setViewTransform _ _ _ => d
  | .setViewRect _ _ _ _ _ => d
  | .updateVertexBuffer hd s m => d.updateVertexBuffer hd s m
  | .updateIndexBuffer hd s m => d.updateIndexBuffer hd s m
  | .setVertexBuffer stream hd =>
    { d with draw := { d.draw with streams := (stream, hd) :: d.draw.streams } }
  | .setIndexBuffer hd => { d with draw := { d.draw with indexBuffer := some hd } }
  | .setState st => { d with draw := { d.draw with state := st } }
  | .submit id program => d.submit K id program
  | .frame => d.frame

/-- The library state after a trace of calls. -/
def Device.run {α : Type} (K : Defines) (d : Device α) : List (Cmd α) → Device α
  | [] => d
  | c :: cs => (d.exec K c).run K cs

/-- The library states in which the `submit` calls of a trace are made, in order. -/
def statesAtSubmit {α : Type} (K : Defines) (d : Device α) : List (Cmd α) → List (Device α)
  | [] => []
  | c :: cs => (if c.isSubmit then [d] else []) ++ statesAtSubmit K (d.exec K c) cs

/-- The method `ExampleCubes::init` (cubes.cpp:44-86): the object and the library
state it leaves.  The command-line arguments only select the backend and are left
out; the mouse state starts zeroed. -/
def init (α : Type) (K : Defines) (_width _height : Nat) : ExampleCubes × Device α :=
  let d : Device α := bgfx.init K
  let d := { d with debug := K.BGFX_DEBUG_NONE }
  let d := { d with viewClear := d.viewClear ++
    [(0, K.BGFX_CLEAR_COLOR ||| K.BGFX_CLEAR_DEPTH, 0x303030ff, 1, 0)] }
  let layout := PosColorVertex.init
  let p := d.loadProgram "vs_cubes" "fs_cubes"
  let vb := p.2.createDynamicVertexBuffer 4 layout
  let ib := vb.2.createDynamicIndexBuffer 6
  let d := { ib.2 with imgui := true }
  ({ m_mouseState := ⟨0, 0, 0, fun _ => 0⟩
     m_width := _width, m_height := _height
     m_debug := K.BGFX_DEBUG_NONE, m_reset := K.BGFX_RESET_VSYNC
     m_program := p.1, m_vbh := vb.1, m_ibh := ib.1 }, d)

/-- A sample assignment of the header constants, for evaluating the model on concrete
inputs; the theorems hold for every assignment. -/
def sampleDefines : Defines :=
  { BGFX_DEBUG_NONE := 0, BGFX_RESET_VSYNC := 0x80
    BGFX_CLEAR_COLOR := 1, BGFX_CLEAR_DEPTH := 2
    BGFX_STATE_WRITE_RGB := 0x7, BGFX_STATE_WRITE_A := 0x8
    BGFX_STATE_BLEND_ALPHA := 0x6565000, BGFX_STATE_DEFAULT := 0x10000500000001f
    IMGUI_MBUT_LEFT := 1, IMGUI_MBUT_RIGHT := 2, IMGUI_MBUT_MIDDLE := 4 }

/-- A sample outcome of `entry::processEvents` that does not request exit. -/
def sampleEvents : ProcessEvents :=
  { exit := false, width := 1280, height := 720, debug := 0, reset := 0x80
    mouseState := ⟨0, 0, 0, fun _ => 0⟩ }

/-! ## Measuring what was written -/

/-- The arrays handed to the vertex-buffer updates of a trace, one per update. -/
def verticesWritten {α : Type} (tr : List (Cmd α)) : List (List (PosColorVertex α)) :=
  (vertexUpdates tr).map fun u => u.2.2.data

/-- The arrays handed to the index-buffer updates of a trace, one per update. -/
def indicesWritten {α : Type} (tr : List (Cmd α)) : List (List Nat) :=
  (indexUpdates tr).map fun u => u.2.2.data

/-- Position of a vertex. -/
def position {α : Type} (v : PosColorVertex α) : α × α := (v.m_x, v.m_y)

/-- Shoelace sum of the edges of a path, closed back to `first`. -/
def shoelaceFrom (first : ℚ × ℚ) : List (ℚ × ℚ) → ℚ
  | [] => 0
  | [p] => p.1 * first.2 - first.1 * p.2
  | p :: q :: rest => (p.1 * q.2 - q.1 * p.2) + shoelaceFrom first (q :: rest)

/-- Area of the closed polygon through the given points, by the shoelace formula
(absolute value). -/
def polygonArea : List (ℚ × ℚ) → ℚ
  | [] => 0
  | p :: ps => |shoelaceFrom p (p :: ps)| / 2

/-- Signed area of the triangle `a b c`. -/
def triangleSignedArea (a b c : ℚ × ℚ) : ℚ :=
  ((b.1 - a.1) * (c.2 - a.2) - (c.1 - a.1) * (b.2 - a.2)) / 2

/-- An index list read as a triangle list: three consecutive indices per triangle. -/
def triangles : List Nat → List (Nat × Nat × Nat)
  | i :: j :: k :: rest => (i, j, k) :: triangles rest
  | _ => []

/-- Signed area of the triangle an index triple selects among the vertices, if all
three indices are in range. -/
def indexedSignedArea (vs : List (PosColorVertex ℚ)) (t : Nat × Nat × Nat) : Option ℚ :=
  (vs[t.1]?).bind fun a => (vs[t.2.1]?).bind fun b => (vs[t.2.2]?).map fun c =>
    triangleSignedArea (position a) (position b) (position c)

/-- The vertex with the real numbers its `float` coordinates stand for. -/
def PosColorVertex.value (v : PosColorVertex F32) : PosColorVertex ℚ :=
  ⟨v.m_x.value, v.m_y.value, v.m_abgr⟩

/-- Component `i` of a packed colour read as four `Uint8` in little-endian byte
order: `(value >> 8*i) % 256`. -/
def colorByte (value i : Nat) : Nat := (value >>> (8 * i)) % 256

/-- The `(r, g, b, a)` components of a packed colour under the `Color0` attribute of
the layout (4 normalized `Uint8`, in memory order). -/
def colorComponents (value : Nat) : Nat × Nat × Nat × Nat :=
  (colorByte value 0, colorByte value 1, colorByte value 2, colorByte value 3)

/-- The `(r, g, b, a)` components of the vertices a draw call is drawn with. -/
def RenderedDraw.colors {α : Type} (r : RenderedDraw α) : List (Nat × Nat × Nat × Nat) :=
  match r.vertices with
  | none => []
  | some slots => (slots.filterMap id).map fun v => colorComponents v.m_abgr

/-- The four corners of the rectangle at `(x, y)` of size `(w, h)`, all of one
colour, in the order lower-left, lower-right, upper-right, upper-left. -/
def quad {α : Type} [Add α] (x y w h : α) (color : Nat) : List (PosColorVertex α) :=
  [⟨x, y, color⟩, ⟨x + w, y, color⟩, ⟨x + w, y + h, color⟩, ⟨x, y + h, color⟩]

/-- The index array of a quad as the index buffer stores it once written. -/
def quadIndexSlots : List (Option Nat) := [some 0, some 1, some 2, some 2, some 3, some 0]

/-- The vertices a vertex buffer holds: the contents of its written slots. -/
def DynamicVertexBuffer.held {α : Type} (b : DynamicVertexBuffer α) :
    List (PosColorVertex α) :=
  b.slots.filterMap id

/-- The indices an index buffer holds: the contents of its written slots. -/
def DynamicIndexBuffer.held (b : DynamicIndexBuffer) : List Nat := b.slots.filterMap id

/-- The handles of the object name the shared buffers of `init` on the library state:
a vertex buffer of the layout's stride with capacity 4 and an index buffer with
capacity 6, whatever their contents. -/
def SharedBuffers {α : Type} (self : ExampleCubes) (d : Device α) : Prop :=
  (d.dvbs[self.m_vbh]?).map (fun b => (b.stride, b.capacity))
      = some (PosColorVertex.init.stride, 4) ∧
    (d.dibs[self.m_ibh]?).map (fun b => b.capacity) = some 6

/-- The library state in which `render_rect` makes its `submit` call: both buffers
overwritten, buffers and state bound. -/
def atSubmit {α : Type} [Add α] (K : Defines) (self : ExampleCubes) (d : Device α)
    (x y w h : α) (color : Nat) : Device α :=
  { d with
    dvbs := d.dvbs.set self.m_vbh ⟨12, (quad x y w h color).map some⟩
    dibs := d.dibs.set self.m_ibh ⟨quadIndexSlots⟩
    draw := ⟨(0, self.m_vbh) :: d.draw.streams, some self.m_ibh,
      K.BGFX_STATE_WRITE_RGB ||| K.BGFX_STATE_WRITE_A ||| K.BGFX_STATE_BLEND_ALPHA⟩ }

/-- The library state after one call of `render_rect`. -/
def renderOn {α : Type} [Add α] (K : Defines) (self : ExampleCubes) (d : Device α)
    (x y w h : α) (color : Nat) : Device α :=
  d.run K (render_rect K self x y w h color).2

/-- The library calls of a sequence of `render_rect` calls, one per argument tuple
`(x, y, w, h, color)`. -/
def renderAll {α : Type} [Add α] (K : Defines) (self : ExampleCubes) :
    List (α × α × α × α × Nat) → List (Cmd α)
  | [] => []
  | c :: cs =>
    (render_rect K self c.1 c.2.1 c.2.2.1 c.2.2.2.1 c.2.2.2.2).2
      ++ renderAll K (render_rect K self c.1 c.2.1 c.2.2.1 c.2.2.2.1 c.2.2.2.2).1 cs

/-- Capacity and number of held elements of the shared vertex and index buffers on a
library state. -/
def bufferSizes {α : Type} (self : ExampleCubes) (d : Device α) :
    Option (Nat × Nat) × Option (Nat × Nat) :=
  ((d.dvbs[self.m_vbh]?).map (fun b => (b.capacity, b.held.length)),
   (d.dibs[self.m_ibh]?).map (fun b => (b.capacity, b.held.length)))

/-! ## Theorems -/

/-! ### Geometry of one rectangle -/

theorem F32.value_finite_add (a b : Int) :
    (F32.finite (a + b)).value = (F32.finite a).value + (F32.finite b).value := by
  simp only [F32.value]
  push_cast
  ring

theorem F32.value_unit : (F32.finite F32.unit).value = 1 := by
  show (((2 ^ 149 : ℕ) : ℤ) : ℚ) / 2 ^ 149 = 1
  rw [Int.cast_natCast, Nat.cast_pow, Nat.cast_ofNat]
  exact div_self (pow_ne_zero _ two_ne_zero)

theorem F32.value_pos {k : Int} (hk : 0 < k) : 0 < (F32.finite k).value := by
  simp only [F32.value]
  have hq : (0 : ℚ) < (k : ℚ) := by exact_mod_cast hk
  positivity

theorem rectangle_area (x y w h : ℚ) (hw : 0 < w) (hh : 0 < h) :
    polygonArea [(x, y), (x + w, y), (x + w, y + h), (x, y + h)] = w * h := by
  have hpos : 0 ≤ w * h := le_of_lt (mul_pos hw hh)
  have hs : x * y - (x + w) * y + ((x + w) * (y + h) - (x + w) * y
      + ((x + w) * (y + h) - x * (y + h) + (x * y - x * (y + h)))) = 2 * (w * h) := by
    ring
  simp only [polygonArea, shoelaceFrom]
  rw [hs, abs_of_nonneg (by linarith)]
  ring

theorem degenerate_area (p : ℚ × ℚ) : polygonArea [p, p, p, p] = 0 := by
  simp [polygonArea, shoelaceFrom]

set_option maxRecDepth 4000 in
theorem F32.add_rounds_away_one :
    F32.ofInt 16777216 + F32.ofInt 1 = F32.ofInt 16777216 ∧
    F32.ofInt 1 = F32.finite F32.unit := by
  decide

/-- C1 (as amended): for `float` arguments with `w > 0` and `h > 0` whose sums `x + w`
and `y + h` are exact in binary32 (finite and not rounded), `render_rect` hands the
vertex buffer exactly the four vertices `(x, y)`, `(x+w, y)`, `(x+w, y+h)`,
`(x, y+h)` in this order; consecutive corners share a coordinate, the sides measure
`w` and `h`, and the shoelace area of the closed polygon is `w * h`. -/
theorem render_rect_rectangle_area_exact (K : Defines) (self : ExampleCubes)
    (kx ky kw kh : Int) (color : Nat) (hw : 0 < kw) (hh : 0 < kh)
    (hxw : F32.finite kx + F32.finite kw = F32.finite (kx + kw))
    (hyh : F32.finite ky + F32.finite kh = F32.finite (ky + kh)) :
    ∃ v0 v1 v2 v3 : PosColorVertex F32,
      verticesWritten (render_rect K self (F32.finite kx) (F32.finite ky) (F32.finite kw)
        (F32.finite kh) color).2 = [[v0, v1, v2, v3]] ∧
      position v0.value = ((F32.finite kx).value, (F32.finite ky).value) ∧
      position v1.value
        = ((F32.finite kx).value + (F32.finite kw).value, (F32.finite ky).value) ∧
      position v2.value = ((F32.finite kx).value + (F32.finite kw).value,
        (F32.finite ky).value + (F32.finite kh).value) ∧
      position v3.value
        = ((F32.finite kx).value, (F32.finite ky).value + (F32.finite kh).value) ∧
      v0.m_y = v1.m_y ∧ v1.m_x = v2.m_x ∧ v2.m_y = v3.m_y ∧ v3.m_x = v0.m_x ∧
      v1.value.m_x - v0.value.m_x = (F32.finite kw).value ∧
      v2.value.m_y - v1.value.m_y = (F32.finite kh).value ∧
      polygonArea [position v0.value, position v1.value, position v2.value,
          position v3.value]
        = (F32.finite kw).value * (F32.finite kh).value := by
  refine ⟨⟨F32.finite kx, F32.finite ky, color⟩, ⟨F32.finite (kx + kw), F32.finite ky, color⟩,
    ⟨F32.finite (kx + kw), F32.finite (ky + kh), color⟩,
    ⟨F32.finite kx, F32.finite (ky + kh), color⟩, ?_, rfl, ?_, ?_, ?_, rfl, rfl, rfl, rfl,
    ?_, ?_, ?_⟩
  · simp only [render_rect, verticesWritten, vertexUpdates, bgfx.copy, List.map, hxw, hyh]
  · simp only [position, PosColorVertex.value, F32.value_finite_add]
  · simp only [position, PosColorVertex.value, F32.value_finite_add]
  · simp only [position, PosColorVertex.value, F32.value_finite_add]
  · simp only [PosColorVertex.value, F32.value_finite_add]
    ring
  · simp only [PosColorVertex.value, F32.value_finite_add]
    ring
  · simp only [position, PosColorVertex.value, F32.value_finite_add]
    exact rectangle_area _ _ _ _ (F32.value_pos hw) (F32.value_pos hh)

set_option maxRecDepth 4000 in
/-- Witness of C1 as amended, at the first rectangle of the example:
`x = y = 100`, `w = h = 200`, where `100 + 200` is exact in binary32. -/
theorem render_rect_rectangle_area_exact_witness :
    (F32.finite (100 * F32.unit) + F32.finite (200 * F32.unit)
      = F32.finite (100 * F32.unit + 200 * F32.unit)) ∧
    ∃ v0 v1 v2 v3 : PosColorVertex F32,
      verticesWritten (render_rect sampleDefines (init F32 sampleDefines 1280 720).1
        (F32.finite (100 * F32.unit)) (F32.finite (100 * F32.unit))
        (F32.finite (200 * F32.unit)) (F32.finite (200 * F32.unit)) COLOR_RED).2
          = [[v0, v1, v2, v3]] ∧
      polygonArea [position v0.value, position v1.value, position v2.value,
          position v3.value]
        = (F32.finite (200 * F32.unit)).value * (F32.finite (200 * F32.unit)).value :=
  have wit := render_rect_rectangle_area_exact sampleDefines
    (init F32 sampleDefines 1280 720).1 (100 * F32.unit) (100 * F32.unit)
    (200 * F32.unit) (200 * F32.unit) COLOR_RED (by decide) (by decide) (by decide)
    (by decide)
  ⟨by decide, wit.elim fun v0 h0 => h0.elim fun v1 h1 => h1.elim fun v2 h2 =>
    h2.elim fun v3 h3 => ⟨v0, v1, v2, v3, h3.1, h3.2.2.2.2.2.2.2.2.2.2.2⟩⟩

/-- C1 (as stated) fails in binary32: at `x = y = 2^24`, `w = h = 1` both sizes are
positive, yet `x + w` and `y + h` round back to `2^24`, the four vertices written are
equal, and the area of their polygon is not `w * h`. -/
theorem render_rect_area_lost_to_rounding :
    0 < (F32.ofInt 1).value ∧
    verticesWritten (render_rect sampleDefines (init F32 sampleDefines 1280 720).1
      (F32.ofInt 16777216) (F32.ofInt 16777216) (F32.ofInt 1) (F32.ofInt 1) COLOR_RED).2
        = [List.replicate 4 ⟨F32.ofInt 16777216, F32.ofInt 16777216, COLOR_RED⟩] ∧
    ¬ (polygonArea ((List.replicate 4
          (⟨F32.ofInt 16777216, F32.ofInt 16777216, COLOR_RED⟩ : PosColorVertex F32)).map
          fun v => position v.value)
        = (F32.ofInt 1).value * (F32.ofInt 1).value) := by
  obtain ⟨hsum, hone⟩ := F32.add_rounds_away_one
  refine ⟨?_, ?_, ?_⟩
  · rw [hone, F32.value_unit]
    norm_num
  · simp only [render_rect, verticesWritten, vertexUpdates, bgfx.copy, List.map, hsum,
      List.replicate]
  · rw [hone, F32.value_unit]
    simp only [List.replicate, List.map, degenerate_area]
    norm_num

theorem quad_triangle_areas (x y w h : ℚ) (color : Nat) :
    (triangles [0, 1, 2, 2, 3, 0]).map (indexedSignedArea
        [⟨x, y, color⟩, ⟨x + w, y, color⟩, ⟨x + w, y + h, color⟩, ⟨x, y + h, color⟩])
      = [some (w * h / 2), some (w * h / 2)] ∧
    indexedSignedArea
        [⟨x, y, color⟩, ⟨x + w, y, color⟩, ⟨x + w, y + h, color⟩, ⟨x, y + h, color⟩]
        (0, 2, 1) = some (-(w * h / 2)) ∧
    indexedSignedArea
        [⟨x, y, color⟩, ⟨x + w, y, color⟩, ⟨x + w, y + h, color⟩, ⟨x, y + h, color⟩]
        (0, 2, 3) = some (w * h / 2) := by
  have e1 : ((x + w - x) * (y + h - y) - (x + w - x) * (y - y)) / 2 = w * h / 2 := by ring
  have e2 : ((x - (x + w)) * (y - (y + h)) - (x - (x + w)) * (y + h - (y + h))) / 2
      = w * h / 2 := by ring
  have e3 : ((x + w - x) * (y - y) - (x + w - x) * (y + h - y)) / 2 = -(w * h / 2) := by
    ring
  have e4 : ((x + w - x) * (y + h - y) - (x - x) * (y + h - y)) / 2 = w * h / 2 := by ring
  refine ⟨?_, ?_, ?_⟩
  · simp only [triangles, List.map, indexedSignedArea, triangleSignedArea, position]
    simp only [List.getElem?_cons_zero, List.getElem?_cons_succ, Option.some_bind,
      Option.map_some']
    rw [e1, e2]
  · simp only [indexedSignedArea, triangleSignedArea, position]
    simp only [List.getElem?_cons_zero, List.getElem?_cons_succ, Option.some_bind,
      Option.map_some']
    rw [e3]
  · simp only [indexedSignedArea, triangleSignedArea, position]
    simp only [List.getElem?_cons_zero, List.getElem?_cons_succ, Option.some_bind,
      Option.map_some']
    rw [e4]

/-- C2 (as amended): for `float` arguments with `w > 0` and `h > 0` whose sums `x + w`
and `y + h` are exact in binary32, the indices `render_rect` hands the index buffer
are `[0, 1, 2, 2, 3, 0]`, all below 4; read as the triangles `(v0, v1, v2)` and
`(v2, v3, v0)` over the written vertices, both signed areas have the same sign, each
has absolute value `w * h / 2`, the two sum to `w * h`, and `v1` and `v3` lie on
opposite sides of the shared diagonal `v0 v2`. -/
theorem render_rect_triangles_cover_exact (K : Defines) (self : ExampleCubes)
    (kx ky kw kh : Int) (color : Nat) (hw : 0 < kw) (hh : 0 < kh)
    (hxw : F32.finite kx + F32.finite kw = F32.finite (kx + kw))
    (hyh : F32.finite ky + F32.finite kh = F32.finite (ky + kh)) :
    ∃ (vs : List (PosColorVertex F32)) (idx : List Nat) (a1 a2 : ℚ),
      verticesWritten (render_rect K self (F32.finite kx) (F32.finite ky) (F32.finite kw)
        (F32.finite kh) color).2 = [vs] ∧
      indicesWritten (render_rect K self (F32.finite kx) (F32.finite ky) (F32.finite kw)
        (F32.finite kh) color).2 = [idx] ∧
      idx = [0, 1, 2, 2, 3, 0] ∧ vs.length = 4 ∧ (∀ i ∈ idx, i < 4) ∧
      triangles idx = [(0, 1, 2), (2, 3, 0)] ∧
      (triangles idx).map (indexedSignedArea (vs.map PosColorVertex.value))
        = [some a1, some a2] ∧
      0 < a1 * a2 ∧
      |a1| = (F32.finite kw).value * (F32.finite kh).value / 2 ∧
      |a2| = (F32.finite kw).value * (F32.finite kh).value / 2 ∧
      |a1| + |a2| = (F32.finite kw).value * (F32.finite kh).value ∧
      (indexedSignedArea (vs.map PosColorVertex.value) (0, 2, 1)).bind (fun s =>
        (indexedSignedArea (vs.map PosColorVertex.value) (0, 2, 3)).map fun t =>
          decide (s * t < 0)) = some true := by
  have hpos : 0 < (F32.finite kw).value * (F32.finite kh).value :=
    mul_pos (F32.value_pos hw) (F32.value_pos hh)
  obtain ⟨t1, t2, t3⟩ := quad_triangle_areas (F32.finite kx).value (F32.finite ky).value
    (F32.finite kw).value (F32.finite kh).value color
  refine ⟨[⟨F32.finite kx, F32.finite ky, color⟩, ⟨F32.finite (kx + kw), F32.finite ky, color⟩,
      ⟨F32.finite (kx + kw), F32.finite (ky + kh), color⟩,
      ⟨F32.finite kx, F32.finite (ky + kh), color⟩],
    [0, 1, 2, 2, 3, 0], (F32.finite kw).value * (F32.finite kh).value / 2,
    (F32.finite kw).value * (F32.finite kh).value / 2, ?_, rfl, rfl, rfl, ?_, rfl, ?_, ?_,
    ?_, ?_, ?_, ?_⟩
  · simp only [render_rect, verticesWritten, vertexUpdates, bgfx.copy, List.map, hxw, hyh]
  · intro i hi
    simp at hi
    omega
  · simp only [List.map, PosColorVertex.value, F32.value_finite_add] at t1 ⊢
    exact t1
  · positivity
  · exact abs_of_pos (by linarith)
  · exact abs_of_pos (by linarith)
  · rw [abs_of_pos (by linarith)]
    ring
  · simp only [List.map, PosColorVertex.value, F32.value_finite_add] at t2 t3 ⊢
    rw [t2, t3]
    have hneg : -((F32.finite kw).value * (F32.finite kh).value / 2)
        * ((F32.finite kw).value * (F32.finite kh).value / 2) < 0 := by nlinarith
    simp only [Option.some_bind, Option.map_some']
    exact congrArg some (decide_eq_true hneg)

set_option maxRecDepth 4000 in
/-- Witness of C2 as amended, at the second rectangle of the example:
`x = y = 400`, `w = h = 200`. -/
theorem render_rect_triangles_cover_exact_witness :
    (F32.finite (400 * F32.unit) + F32.finite (200 * F32.unit)
      = F32.finite (400 * F32.unit + 200 * F32.unit)) ∧
    ∃ (vs : List (PosColorVertex F32)) (a1 a2 : ℚ),
      verticesWritten (render_rect sampleDefines (init F32 sampleDefines 1280 720).1
        (F32.finite (400 * F32.unit)) (F32.finite (400 * F32.unit))
        (F32.finite (200 * F32.unit)) (F32.finite (200 * F32.unit)) COLOR_BLUE).2 = [vs] ∧
      (triangles [0, 1, 2, 2, 3, 0]).map (indexedSignedArea (vs.map PosColorVertex.value))
        = [some a1, some a2] ∧
      0 < a1 * a2 ∧
      |a1| + |a2|
        = (F32.finite (200 * F32.unit)).value * (F32.finite (200 * F32.unit)).value :=
  have wit := render_rect_triangles_cover_exact sampleDefines
    (init F32 sampleDefines 1280 720).1 (400 * F32.unit) (400 * F32.unit)
    (200 * F32.unit) (200 * F32.unit) COLOR_BLUE (by decide) (by decide) (by decide)
    (by decide)
  ⟨by decide, wit.elim fun vs h0 => h0.elim fun idx h1 => h1.elim fun a1 h2 =>
    h2.elim fun a2 h3 =>
      ⟨vs, a1, a2, h3.1, h3.2.2.1 ▸ h3.2.2.2.2.2.2.1, h3.2.2.2.2.2.2.2.1,
        h3.2.2.2.2.2.2.2.2.2.2.1⟩⟩

/-- C2 (as stated) fails in binary32: at `x = y = 2^24`, `w = h = 1` both sizes are
positive, yet the four written vertices are equal, so both triangles of the index
list have signed area `0`: they have no common sign and do not measure `w * h / 2`. -/
theorem render_rect_triangles_lost_to_rounding :
    0 < (F32.ofInt 1).value ∧
    (verticesWritten (render_rect sampleDefines (init F32 sampleDefines 1280 720).1
      (F32.ofInt 16777216) (F32.ofInt 16777216) (F32.ofInt 1) (F32.ofInt 1)
      COLOR_RED).2).map
        (fun vs => (triangles [0, 1, 2, 2, 3, 0]).map
          (indexedSignedArea (vs.map PosColorVertex.value)))
      = [[some 0, some 0]] ∧
    ¬ ∃ a1 a2 : ℚ,
      (verticesWritten (render_rect sampleDefines (init F32 sampleDefines 1280 720).1
        (F32.ofInt 16777216) (F32.ofInt 16777216) (F32.ofInt 1) (F32.ofInt 1)
        COLOR_RED).2).map
          (fun vs => (triangles [0, 1, 2, 2, 3, 0]).map
            (indexedSignedArea (vs.map PosColorVertex.value)))
        = [[some a1, some a2]] ∧
      0 < a1 * a2 ∧
      |a1| = (F32.ofInt 1).value * (F32.ofInt 1).value / 2 := by
  obtain ⟨hsum, hone⟩ := F32.add_rounds_away_one
  have hlist : (verticesWritten (render_rect sampleDefines
      (init F32 sampleDefines 1280 720).1 (F32.ofInt 16777216) (F32.ofInt 16777216)
      (F32.ofInt 1) (F32.ofInt 1) COLOR_RED).2).map
        (fun vs => (triangles [0, 1, 2, 2, 3, 0]).map
          (indexedSignedArea (vs.map PosColorVertex.value)))
      = [[some 0, some 0]] := by
    simp only [render_rect, verticesWritten, vertexUpdates, bgfx.copy, List.map, hsum]
    simp [indexedSignedArea, triangleSignedArea]
  refine ⟨?_, hlist, ?_⟩
  · rw [hone, F32.value_unit]
    norm_num
  · rintro ⟨a1, a2, hareas, hsign, -⟩
    rw [hlist] at hareas
    simp only [List.cons.injEq, Option.some.injEq, and_true] at hareas
    rw [← hareas.1, ← hareas.2] at hsign
    norm_num at hsign

/-- C3: for every colour value `C` (in particular every 32-bit value) and every
`x, y, w, h` of any coordinate type, the block `render_rect` writes to the vertex
buffer consists of exactly four vertices and each of them has `m_abgr = C`. -/
theorem render_rect_color_unmodified {α : Type} [Add α] (K : Defines)
    (self : ExampleCubes) (x y w h : α) (C : Nat) :
    ∃ vs, vertexUpdates (render_rect K self x y w h C).2
        = [(self.m_vbh, 0, bgfx.copy vs (4 * sizeof_PosColorVertex))] ∧
      vs.length = 4 ∧ vs.map (·.m_abgr) = [C, C, C, C] :=
  ⟨_, rfl, rfl, rfl⟩

/-! ### Handles are kept by `processEvents` -/

@[simp]
theorem afterEvents_m_program (self : ExampleCubes) (ev : ProcessEvents) :
    (self.afterEvents ev).m_program = self.m_program := rfl

@[simp]
theorem afterEvents_m_vbh (self : ExampleCubes) (ev : ProcessEvents) :
    (self.afterEvents ev).m_vbh = self.m_vbh := rfl

@[simp]
theorem afterEvents_m_ibh (self : ExampleCubes) (ev : ProcessEvents) :
    (self.afterEvents ev).m_ibh = self.m_ibh := rfl

/-! ### The command trace of one frame -/

/-- C4: when `processEvents` does not request exit, `update` issues exactly two
`submit` calls; restricted to buffer updates and submits, its trace is: the vertex
update and the index update of the quad `(100, 100, 200, 200, COLOR_RED)`, a submit,
the vertex update and the index update of the quad `(400, 400, 200, 200, COLOR_BLUE)`,
a submit. -/
theorem update_two_submissions (K : Defines) (hd : Bool) (self : ExampleCubes)
    (ev : ProcessEvents) (hx : ev.exit = false) :
    ((update K hd self ev : Bool × ExampleCubes × List (Cmd ℚ)).2.2.filter
        Cmd.isSubmit).length = 2 ∧
    (update K hd self ev : Bool × ExampleCubes × List (Cmd ℚ)).2.2.filter
        (fun c => c.isSubmit || c.isBufferUpdate) =
      [ Cmd.updateVertexBuffer self.m_vbh 0
          ⟨[⟨100, 100, COLOR_RED⟩, ⟨300, 100, COLOR_RED⟩, ⟨300, 300, COLOR_RED⟩,
            ⟨100, 300, COLOR_RED⟩], 48⟩
      , Cmd.updateIndexBuffer self.m_ibh 0 ⟨[0, 1, 2, 2, 3, 0], 12⟩
      , Cmd.submit 0 self.m_program
      , Cmd.updateVertexBuffer self.m_vbh 0
          ⟨[⟨400, 400, COLOR_BLUE⟩, ⟨600, 400, COLOR_BLUE⟩, ⟨600, 600, COLOR_BLUE⟩,
            ⟨400, 600, COLOR_BLUE⟩], 48⟩
      , Cmd.updateIndexBuffer self.m_ibh 0 ⟨[0, 1, 2, 2, 3, 0], 12⟩
      , Cmd.submit 0 self.m_program ] := by
  have e1 : (100 : ℚ) + 200 = 300 := by norm_num
  have e2 : (400 : ℚ) + 200 = 600 := by norm_num
  constructor
  · simp [update, hx, beginFrame, render_rect, List.filter, Cmd.isSubmit]
  · simp [update, hx, beginFrame, render_rect, List.filter, Cmd.isSubmit, Cmd.isBufferUpdate,
      bgfx.copy,
      sizeof_PosColorVertex, sizeof_float, sizeof_uint32_t, sizeof_uint16_t, e1, e2]

/-- Witness of C4 on the object left by `init` and an event outcome without exit. -/
theorem update_two_submissions_witness :
    ((update sampleDefines false (init ℚ sampleDefines 1280 720).1 sampleEvents :
        Bool × ExampleCubes × List (Cmd ℚ)).2.2.filter Cmd.isSubmit).length = 2 ∧
    (update sampleDefines false (init ℚ sampleDefines 1280 720).1 sampleEvents :
        Bool × ExampleCubes × List (Cmd ℚ)).2.2.filter
        (fun c => c.isSubmit || c.isBufferUpdate) =
      [ Cmd.updateVertexBuffer (init ℚ sampleDefines 1280 720).1.m_vbh 0
          ⟨[⟨100, 100, COLOR_RED⟩, ⟨300, 100, COLOR_RED⟩, ⟨300, 300, COLOR_RED⟩,
            ⟨100, 300, COLOR_RED⟩], 48⟩
      , Cmd.updateIndexBuffer (init ℚ sampleDefines 1280 720).1.m_ibh 0
          ⟨[0, 1, 2, 2, 3, 0], 12⟩
      , Cmd.submit 0 (init ℚ sampleDefines 1280 720).1.m_program
      , Cmd.updateVertexBuffer (init ℚ sampleDefines 1280 720).1.m_vbh 0
          ⟨[⟨400, 400, COLOR_BLUE⟩, ⟨600, 400, COLOR_BLUE⟩, ⟨600, 600, COLOR_BLUE⟩,
            ⟨400, 600, COLOR_BLUE⟩], 48⟩
      , Cmd.updateIndexBuffer (init ℚ sampleDefines 1280 720).1.m_ibh 0
          ⟨[0, 1, 2, 2, 3, 0], 12⟩
      , Cmd.submit 0 (init ℚ sampleDefines 1280 720).1.m_program ] :=
  update_two_submissions sampleDefines false (init ℚ sampleDefines 1280 720).1
    sampleEvents rfl

/-- C9: `update` returns `true` exactly when `processEvents` does not request exit.
On an exit request it returns `false` and makes no library call at all (no buffer
update, no submit, no `frame`); otherwise, restricted to submits and `frame` calls,
its trace is two submits followed by one `frame`, and that `frame` is its last call. -/
theorem update_return_value {α : Type} [Add α] [NatCast α] (K : Defines) (hd : Bool)
    (self : ExampleCubes) (ev : ProcessEvents) :
    ((update K hd self ev : Bool × ExampleCubes × List (Cmd α)).1 = true
      ↔ ev.exit = false) ∧
    (update K hd self ev : Bool × ExampleCubes × List (Cmd α)).1 = !ev.exit ∧
    (if ev.exit then
      (update K hd self ev : Bool × ExampleCubes × List (Cmd α)).2.2 = []
    else
      (update K hd self ev : Bool × ExampleCubes × List (Cmd α)).2.2.filter
          (fun c => c.isSubmit || c.isFrame)
        = [Cmd.submit 0 self.m_program, Cmd.submit 0 self.m_program, Cmd.frame] ∧
      (update K hd self ev : Bool × ExampleCubes × List (Cmd α)).2.2.getLast?
        = some Cmd.frame) := by
  cases hx : ev.exit
  · refine ⟨by simp [update, hx], by simp [update, hx], ?_⟩
    simp only [Bool.false_eq_true, if_false]
    constructor
    · simp [update, hx, beginFrame, render_rect, List.filter, Cmd.isSubmit, Cmd.isFrame]
    · simp [update, hx, beginFrame, render_rect]
  · simp [update, hx]

/-! ### In-place writes -/

theorem writeAt_length {ε : Type} (es : List ε) :
    ∀ (slots : List (Option ε)) (start : Nat),
      (writeAt slots start es).length = slots.length := by
  induction es with
  | nil => intro slots start; rfl
  | cons e es ih =>
    intro slots start
    simp [writeAt, ih]

theorem writeAt_append {ε : Type} (es : List ε) :
    ∀ (pre slots : List (Option ε)), es.length = slots.length →
      writeAt (pre ++ slots) pre.length es = pre ++ es.map some := by
  induction es with
  | nil =>
    intro pre slots h
    have hs : slots = [] := List.length_eq_zero.mp h.symm
    simp [writeAt, hs]
  | cons e es ih =>
    intro pre slots h
    cases slots with
    | nil => simp at h
    | cons a rest =>
      have h2 : es.length = rest.length := by simpa using h
      have step := ih (pre ++ [some e]) rest h2
      simp only [List.length_append, List.length_singleton, List.append_assoc,
        List.singleton_append] at step
      simp [writeAt, step]

theorem writeAt_full {ε : Type} (es : List ε) (slots : List (Option ε))
    (h : es.length = slots.length) : writeAt slots 0 es = es.map some := by
  simpa using writeAt_append es [] slots h

/-! ### Running traces -/

theorem run_append {α : Type} (K : Defines) (a b : List (Cmd α)) :
    ∀ d : Device α, d.run K (a ++ b) = (d.run K a).run K b := by
  induction a with
  | nil => intro d; rfl
  | cons c cs ih => intro d; simp [Device.run, ih]

theorem statesAtSubmit_append {α : Type} (K : Defines) (a b : List (Cmd α)) :
    ∀ d : Device α, statesAtSubmit K d (a ++ b) =
      statesAtSubmit K d a ++ statesAtSubmit K (d.run K a) b := by
  induction a with
  | nil => intro d; rfl
  | cons c cs ih => intro d; simp [statesAtSubmit, Device.run, ih]

theorem sharedBuffers_bounds {α : Type} {self : ExampleCubes} {d : Device α}
    (hb : SharedBuffers self d) :
    self.m_vbh < d.dvbs.length ∧ self.m_ibh < d.dibs.length := by
  obtain ⟨hv, hi⟩ := hb
  constructor
  · by_contra hlt
    rw [List.getElem?_eq_none (Nat.le_of_not_lt hlt)] at hv
    simp at hv
  · by_contra hlt
    rw [List.getElem?_eq_none (Nat.le_of_not_lt hlt)] at hi
    simp at hi

theorem init_sharedBuffers (α : Type) (K : Defines) (width height : Nat) :
    SharedBuffers (init α K width height).1 (init α K width height).2 := by
  constructor <;> rfl

theorem render_rect_states {α : Type} [Add α] (K : Defines) (self : ExampleCubes)
    (d : Device α) (x y w h : α) (color : Nat) (hb : SharedBuffers self d) :
    statesAtSubmit K d (render_rect K self x y w h color).2
        = [atSubmit K self d x y w h color] ∧
    d.run K (render_rect K self x y w h color).2 =
      (atSubmit K self d x y w h color).submit K 0 self.m_program := by
  obtain ⟨hv, hi⟩ := hb
  cases hvb : d.dvbs[self.m_vbh]? with
  | none => simp [hvb] at hv
  | some vb =>
    cases hib : d.dibs[self.m_ibh]? with
    | none => simp [hib] at hi
    | some ib =>
      simp only [hvb, hib, Option.map_some', Option.some.injEq, Prod.mk.injEq,
        DynamicVertexBuffer.capacity, DynamicIndexBuffer.capacity] at hv hi
      have hstride : vb.stride = 12 := hv.1
      have w1 : writeAt vb.slots 0 (quad x y w h color) = (quad x y w h color).map some :=
        writeAt_full _ _ (by simp [quad, hv.2])
      have w2 : writeAt ib.slots 0 [0, 1, 2, 2, 3, 0] = quadIndexSlots :=
        writeAt_full _ _ (by simp [hi])
      simp [render_rect, statesAtSubmit, Device.run, Device.exec, Cmd.isSubmit,
        Device.updateVertexBuffer, Device.updateIndexBuffer, hvb, hib, bgfx.copy,
        sizeof_PosColorVertex, sizeof_float, sizeof_uint32_t, sizeof_uint16_t, hstride,
        atSubmit, quad, quadIndexSlots] at w1 w2 ⊢
      simp [w1, w2]

theorem atSubmit_buffers {α : Type} [Add α] (K : Defines) (self : ExampleCubes)
    (d : Device α) (x y w h : α) (color : Nat) (hb : SharedBuffers self d) :
    (atSubmit K self d x y w h color).dvbs[self.m_vbh]?
        = some ⟨12, (quad x y w h color).map some⟩ ∧
    (atSubmit K self d x y w h color).dibs[self.m_ibh]? = some ⟨quadIndexSlots⟩ := by
  obtain ⟨h1, h2⟩ := sharedBuffers_bounds hb
  simp [atSubmit, List.getElem?_set, h1, h2]

theorem atSubmit_sharedBuffers {α : Type} [Add α] (K : Defines) (self : ExampleCubes)
    (d : Device α) (x y w h : α) (color : Nat) (hb : SharedBuffers self d) :
    SharedBuffers self (atSubmit K self d x y w h color) := by
  obtain ⟨h1, h2⟩ := atSubmit_buffers K self d x y w h color hb
  constructor
  · rw [h1]; rfl
  · rw [h2]; rfl

theorem renderOn_eq {α : Type} [Add α] (K : Defines) (self : ExampleCubes)
    (d : Device α) (x y w h : α) (color : Nat) (hb : SharedBuffers self d) :
    renderOn K self d x y w h color =
      (atSubmit K self d x y w h color).submit K 0 self.m_program :=
  (render_rect_states K self d x y w h color hb).2

theorem renderOn_sharedBuffers {α : Type} [Add α] (K : Defines) (self : ExampleCubes)
    (d : Device α) (x y w h : α) (color : Nat) (hb : SharedBuffers self d) :
    SharedBuffers self (renderOn K self d x y w h color) := by
  rw [renderOn_eq K self d x y w h color hb]
  exact atSubmit_sharedBuffers K self d x y w h color hb

theorem bufferSizes_atSubmit {α : Type} [Add α] (K : Defines) (self : ExampleCubes)
    (d : Device α) (x y w h : α) (color : Nat) (hb : SharedBuffers self d) :
    bufferSizes self (atSubmit K self d x y w h color) = (some (4, 4), some (6, 6)) := by
  obtain ⟨h1, h2⟩ := atSubmit_buffers K self d x y w h color hb
  simp [bufferSizes, h1, h2, quad, quadIndexSlots, DynamicVertexBuffer.capacity,
    DynamicVertexBuffer.held, DynamicIndexBuffer.capacity, DynamicIndexBuffer.held]

theorem renderAll_states {α : Type} [Add α] (K : Defines) (self : ExampleCubes)
    (calls : List (α × α × α × α × Nat)) :
    ∀ d : Device α, SharedBuffers self d →
      (statesAtSubmit K d (renderAll K self calls)).map (bufferSizes self)
          = List.replicate calls.length (some (4, 4), some (6, 6)) ∧
      SharedBuffers self (d.run K (renderAll K self calls)) := by
  induction calls with
  | nil => intro d hb; exact ⟨rfl, hb⟩
  | cons c cs ih =>
    intro d hb
    obtain ⟨hs, hr⟩ := render_rect_states K self d c.1 c.2.1 c.2.2.1 c.2.2.2.1 c.2.2.2.2 hb
    have hb2 := renderOn_sharedBuffers K self d c.1 c.2.1 c.2.2.1 c.2.2.2.1 c.2.2.2.2 hb
    obtain ⟨ih1, ih2⟩ := ih _ hb2
    have hself : (render_rect K self c.1 c.2.1 c.2.2.1 c.2.2.2.1 c.2.2.2.2).1 = self := rfl
    simp only [renderAll, hself, statesAtSubmit_append, run_append, hs, List.map_append,
      List.map_cons, List.map_nil, List.length_cons]
    refine ⟨?_, ih2⟩
    rw [bufferSizes_atSubmit K self d _ _ _ _ _ hb]
    unfold renderOn at ih1
    rw [ih1]
    simp [List.replicate_succ]

theorem beginFrame_run {α : Type} (K : Defines) (hd : Bool) (self : ExampleCubes)
    (d : Device α) (rest : List (Cmd α)) :
    d.run K (beginFrame K hd self ++ rest)
        = Device.run K { d with touched := d.touched ++ [0] } rest ∧
    statesAtSubmit K d (beginFrame K hd self ++ rest)
        = statesAtSubmit K { d with touched := d.touched ++ [0] } rest := by
  constructor <;> simp [beginFrame, Device.run, Device.exec, statesAtSubmit, Cmd.isSubmit]

theorem two_rects_frame {α : Type} [Add α] (K : Defines) (hd : Bool)
    (self : ExampleCubes) (d : Device α) (x1 y1 w1 h1 : α) (c1 : Nat)
    (x2 y2 w2 h2 : α) (c2 : Nat) (hb : SharedBuffers self d) :
    (statesAtSubmit K d (beginFrame K hd self ++ ((render_rect K self x1 y1 w1 h1 c1).2 ++
        ((render_rect K self x2 y2 w2 h2 c2).2 ++ [Cmd.frame])))).map
        (fun s => (s.dvbs[self.m_vbh]?).map (·.slots)) =
      [some ((quad x1 y1 w1 h1 c1).map some), some ((quad x2 y2 w2 h2 c2).map some)] ∧
    (d.run K (beginFrame K hd self ++ ((render_rect K self x1 y1 w1 h1 c1).2 ++
        ((render_rect K self x2 y2 w2 h2 c2).2 ++ [Cmd.frame])))).presented =
      d.presented ++ [d.captured ++
        [ ⟨⟨0, self.m_program, ⟨(0, self.m_vbh) :: d.draw.streams, some self.m_ibh,
              K.BGFX_STATE_WRITE_RGB ||| K.BGFX_STATE_WRITE_A ||| K.BGFX_STATE_BLEND_ALPHA⟩⟩,
            some ((quad x1 y1 w1 h1 c1).map some), some quadIndexSlots⟩
        , ⟨⟨0, self.m_program, ⟨[(0, self.m_vbh)], some self.m_ibh,
              K.BGFX_STATE_WRITE_RGB ||| K.BGFX_STATE_WRITE_A ||| K.BGFX_STATE_BLEND_ALPHA⟩⟩,
            some ((quad x2 y2 w2 h2 c2).map some), some quadIndexSlots⟩ ]] ∧
    ((d.run K (beginFrame K hd self ++ ((render_rect K self x1 y1 w1 h1 c1).2 ++
        ((render_rect K self x2 y2 w2 h2 c2).2 ++ [Cmd.frame])))).dvbs[self.m_vbh]?).map
        (·.slots) = some ((quad x2 y2 w2 h2 c2).map some) ∧
    (d.run K (beginFrame K hd self ++ ((render_rect K self x1 y1 w1 h1 c1).2 ++
        ((render_rect K self x2 y2 w2 h2 c2).2 ++ [Cmd.frame])))).queue = [] := by
  have hb0 : SharedBuffers self ({ d with touched := d.touched ++ [0] } : Device α) := hb
  obtain ⟨s1, r1⟩ := render_rect_states K self _ x1 y1 w1 h1 c1 hb0
  have hb1 : SharedBuffers self
      ((atSubmit K self ({ d with touched := d.touched ++ [0] } : Device α)
        x1 y1 w1 h1 c1).submit K 0 self.m_program) :=
    atSubmit_sharedBuffers K self _ x1 y1 w1 h1 c1 hb0
  obtain ⟨s2, r2⟩ := render_rect_states K self _ x2 y2 w2 h2 c2 hb1
  obtain ⟨a1, -⟩ := atSubmit_buffers K self _ x1 y1 w1 h1 c1 hb0
  obtain ⟨a2, -⟩ := atSubmit_buffers K self _ x2 y2 w2 h2 c2 hb1
  obtain ⟨b1, b2⟩ := beginFrame_run K hd self d ((render_rect K self x1 y1 w1 h1 c1).2 ++
    ((render_rect K self x2 y2 w2 h2 c2).2 ++ [Cmd.frame]))
  obtain ⟨hlt, hlti⟩ := sharedBuffers_bounds hb
  rw [b1, b2, statesAtSubmit_append, run_append, s1, r1, statesAtSubmit_append, run_append,
    s2, r2]
  refine ⟨?_, ?_, ?_, ?_⟩
  · simp only [statesAtSubmit, Cmd.isSubmit, List.map, List.append_nil, List.cons_append,
      List.nil_append, a1, a2, Option.map_some', Bool.false_eq_true, if_false]
  · simp [Device.run, Device.exec, Device.frame, Device.submit, Device.resolve, atSubmit,
      List.lookup, List.getElem?_set, hlt, hlti]
  · simp [Device.run, Device.exec, Device.frame, Device.submit, atSubmit,
      List.getElem?_set, hlt]
  · simp [Device.run, Device.exec, Device.frame]

@[simp]
theorem render_rect_fst {α : Type} [Add α] (K : Defines) (self : ExampleCubes)
    (x y w h : α) (color : Nat) : (render_rect K self x y w h color).1 = self := rfl

theorem update_trace {α : Type} [Add α] [NatCast α] (K : Defines) (hd : Bool)
    (self : ExampleCubes) (ev : ProcessEvents) (hx : ev.exit = false) :
    (update K hd self ev : Bool × ExampleCubes × List (Cmd α)).2.2 =
      beginFrame K hd (self.afterEvents ev) ++
        ((render_rect K (self.afterEvents ev) ((100 : Nat) : α) ((100 : Nat) : α)
            ((200 : Nat) : α) ((200 : Nat) : α) COLOR_RED).2 ++
          ((render_rect K (self.afterEvents ev) ((400 : Nat) : α) ((400 : Nat) : α)
            ((200 : Nat) : α) ((200 : Nat) : α) COLOR_BLUE).2 ++ [Cmd.frame])) := by
  simp [update, hx]

theorem update_frame {α : Type} [Add α] [NatCast α] (K : Defines) (hd : Bool)
    (self : ExampleCubes) (ev : ProcessEvents) (d : Device α) (hx : ev.exit = false)
    (hb : SharedBuffers self d) :
    (statesAtSubmit K d (update K hd self ev).2.2).map
        (fun s => (s.dvbs[self.m_vbh]?).map (·.slots)) =
      [ some ((quad ((100 : Nat) : α) ((100 : Nat) : α) ((200 : Nat) : α) ((200 : Nat) : α)
          COLOR_RED).map some)
      , some ((quad ((400 : Nat) : α) ((400 : Nat) : α) ((200 : Nat) : α) ((200 : Nat) : α)
          COLOR_BLUE).map some) ] ∧
    (d.run K (update K hd self ev).2.2).presented =
      d.presented ++ [d.captured ++
        [ ⟨⟨0, self.m_program, ⟨(0, self.m_vbh) :: d.draw.streams, some self.m_ibh,
              K.BGFX_STATE_WRITE_RGB ||| K.BGFX_STATE_WRITE_A ||| K.BGFX_STATE_BLEND_ALPHA⟩⟩,
            some ((quad ((100 : Nat) : α) ((100 : Nat) : α) ((200 : Nat) : α)
              ((200 : Nat) : α) COLOR_RED).map some), some quadIndexSlots⟩
        , ⟨⟨0, self.m_program, ⟨[(0, self.m_vbh)], some self.m_ibh,
              K.BGFX_STATE_WRITE_RGB ||| K.BGFX_STATE_WRITE_A ||| K.BGFX_STATE_BLEND_ALPHA⟩⟩,
            some ((quad ((400 : Nat) : α) ((400 : Nat) : α) ((200 : Nat) : α)
              ((200 : Nat) : α) COLOR_BLUE).map some), some quadIndexSlots⟩ ]] ∧
    ((d.run K (update K hd self ev).2.2).dvbs[self.m_vbh]?).map (·.slots) =
      some ((quad ((400 : Nat) : α) ((400 : Nat) : α) ((200 : Nat) : α) ((200 : Nat) : α)
        COLOR_BLUE).map some) ∧
    (d.run K (update K hd self ev).2.2).queue = [] := by
  rw [update_trace K hd self ev hx]
  exact two_rects_frame K hd (self.afterEvents ev) d _ _ _ _ _ _ _ _ _ _ hb

theorem renderOn_queue {α : Type} [Add α] (K : Defines) (self : ExampleCubes)
    (d : Device α) (x y w h : α) (color : Nat) :
    (renderOn K self d x y w h color).queue = d.queue ++
      [⟨0, self.m_program, ⟨(0, self.m_vbh) :: d.draw.streams, some self.m_ibh,
        K.BGFX_STATE_WRITE_RGB ||| K.BGFX_STATE_WRITE_A ||| K.BGFX_STATE_BLEND_ALPHA⟩⟩] := by
  simp only [renderOn, render_rect, Device.run, Device.exec, Device.updateVertexBuffer,
    Device.updateIndexBuffer, Device.submit]
  cases d.dvbs[self.m_vbh]? <;> cases d.dibs[self.m_ibh]? <;> rfl

/-! ### What every submission is made of -/

/-- C8: whatever the arguments, `render_rect` leaves the object (and so its program
and buffer handles) as it was, and after its two buffer updates it makes exactly the
calls `setVertexBuffer(0, m_vbh)`, `setIndexBuffer(m_ibh)`,
`setState(WRITE_RGB | WRITE_A | BLEND_ALPHA)`, `submit(0, m_program)`, so that the
draw call it queues is for view 0 and program `m_program` with these bindings and this
state; `update` keeps the three handles, and `init` creates a single program, the one
`m_program` names. -/
theorem render_rect_submission_fixed {α : Type} [Add α] [NatCast α] (K : Defines)
    (self : ExampleCubes) (d : Device α) (x y w h : α) (color : Nat) (hd : Bool)
    (ev : ProcessEvents) (width height : Nat) :
    (render_rect K self x y w h color).1 = self ∧
    ((render_rect K self x y w h color).2.take 2).map Cmd.isBufferUpdate = [true, true] ∧
    (render_rect K self x y w h color).2.drop 2 =
      [ Cmd.setVertexBuffer 0 self.m_vbh
      , Cmd.setIndexBuffer self.m_ibh
      , Cmd.setState
          (K.BGFX_STATE_WRITE_RGB ||| K.BGFX_STATE_WRITE_A ||| K.BGFX_STATE_BLEND_ALPHA)
      , Cmd.submit 0 self.m_program ] ∧
    (renderOn K self d x y w h color).queue = d.queue ++
      [⟨0, self.m_program, ⟨(0, self.m_vbh) :: d.draw.streams, some self.m_ibh,
        K.BGFX_STATE_WRITE_RGB ||| K.BGFX_STATE_WRITE_A ||| K.BGFX_STATE_BLEND_ALPHA⟩⟩] ∧
    ((update K hd self ev : Bool × ExampleCubes × List (Cmd α)).2.1.m_program,
      (update K hd self ev : Bool × ExampleCubes × List (Cmd α)).2.1.m_vbh,
      (update K hd self ev : Bool × ExampleCubes × List (Cmd α)).2.1.m_ibh)
        = (self.m_program, self.m_vbh, self.m_ibh) ∧
    (init α K width height).2.programs = [("vs_cubes", "fs_cubes")] ∧
    (init α K width height).2.programs[(init α K width height).1.m_program]?
      = some ("vs_cubes", "fs_cubes") := by
  refine ⟨rfl, rfl, rfl, renderOn_queue K self d x y w h color, ?_, rfl, rfl⟩
  cases hx : ev.exit <;> simp [update, hx, render_rect]

/-! ### The shared buffers -/

/-- C5: `init` creates the vertex buffer with capacity 4 (stride 12 bytes) and the
index buffer with capacity 6, both still empty; every `render_rect` call updates the
vertex buffer from offset 0 with 48 bytes, which are 4 vertices of 12 bytes, and the
index buffer from offset 0 with 12 bytes, which are 6 indices of 2 bytes; after
`init` and any sequence of `render_rect` calls, at each `submit` the vertex buffer has
capacity 4 and holds 4 vertices, the index buffer has capacity 6 and holds 6 indices,
and at the end the capacities and the stride are those of `init`. -/
theorem buffer_sizes_invariant {α : Type} [Add α] (K : Defines) (width height : Nat)
    (self : ExampleCubes) (x y w h : α) (color : Nat)
    (calls : List (α × α × α × α × Nat)) :
    bufferSizes (init α K width height).1 (init α K width height).2
      = (some (4, 0), some (6, 0)) ∧
    (PosColorVertex.init.stride = 12 ∧ sizeof_PosColorVertex = 12) ∧
    vertexUpdates (render_rect K self x y w h color).2
      = [(self.m_vbh, 0, ⟨quad x y w h color, 48⟩)] ∧
    ((quad x y w h color).length = 4 ∧ 48 / PosColorVertex.init.stride = 4) ∧
    indexUpdates (render_rect K self x y w h color).2
      = [(self.m_ibh, 0, ⟨[0, 1, 2, 2, 3, 0], 12⟩)] ∧
    12 / sizeof_uint16_t = 6 ∧
    (statesAtSubmit K (init α K width height).2
        (renderAll K (init α K width height).1 calls)).map
        (bufferSizes (init α K width height).1)
      = List.replicate calls.length (some (4, 4), some (6, 6)) ∧
    SharedBuffers (init α K width height).1
      ((init α K width height).2.run K (renderAll K (init α K width height).1 calls)) :=
  ⟨rfl, ⟨rfl, rfl⟩, rfl, ⟨rfl, rfl⟩, rfl, rfl,
    renderAll_states K _ calls _ (init_sharedBuffers α K width height)⟩

/-- C7: on any library state in which the handles name the shared buffers, whatever
these hold, `render_rect` leaves the vertex buffer holding the four corners computed
from its arguments and the index buffer holding `0,1,2,2,3,0`; two prior states give
the same contents; a second call with the same arguments leaves all buffers as the
first call did; and each call queues one more draw call. -/
theorem render_rect_idempotent {α : Type} [Add α] (K : Defines) (self : ExampleCubes)
    (d d' : Device α) (x y w h : α) (color : Nat)
    (hb : SharedBuffers self d) (hb' : SharedBuffers self d') :
    (renderOn K self d x y w h color).dvbs[self.m_vbh]?
      = some ⟨12, (quad x y w h color).map some⟩ ∧
    (renderOn K self d x y w h color).dibs[self.m_ibh]? = some ⟨quadIndexSlots⟩ ∧
    (renderOn K self d' x y w h color).dvbs[self.m_vbh]?
      = (renderOn K self d x y w h color).dvbs[self.m_vbh]? ∧
    (renderOn K self d' x y w h color).dibs[self.m_ibh]?
      = (renderOn K self d x y w h color).dibs[self.m_ibh]? ∧
    (renderOn K self (renderOn K self d x y w h color) x y w h color).dvbs
      = (renderOn K self d x y w h color).dvbs ∧
    (renderOn K self (renderOn K self d x y w h color) x y w h color).dibs
      = (renderOn K self d x y w h color).dibs ∧
    (renderOn K self d x y w h color).queue.length = d.queue.length + 1 ∧
    (renderOn K self (renderOn K self d x y w h color) x y w h color).queue.length
      = d.queue.length + 2 := by
  have hb2 := renderOn_sharedBuffers K self d x y w h color hb
  have e2 := renderOn_eq K self (renderOn K self d x y w h color) x y w h color hb2
  have e1 := renderOn_eq K self d x y w h color hb
  have e1' := renderOn_eq K self d' x y w h color hb'
  obtain ⟨a1, a2⟩ := atSubmit_buffers K self d x y w h color hb
  obtain ⟨a1', a2'⟩ := atSubmit_buffers K self d' x y w h color hb'
  have v1 : (renderOn K self d x y w h color).dvbs[self.m_vbh]?
      = some ⟨12, (quad x y w h color).map some⟩ := by rw [e1]; exact a1
  have i1 : (renderOn K self d x y w h color).dibs[self.m_ibh]? = some ⟨quadIndexSlots⟩ := by
    rw [e1]; exact a2
  have v1' : (renderOn K self d' x y w h color).dvbs[self.m_vbh]?
      = some ⟨12, (quad x y w h color).map some⟩ := by rw [e1']; exact a1'
  have i1' : (renderOn K self d' x y w h color).dibs[self.m_ibh]? = some ⟨quadIndexSlots⟩ := by
    rw [e1']; exact a2'
  refine ⟨v1, i1, by rw [v1, v1'], by rw [i1, i1'], ?_, ?_, ?_, ?_⟩
  · rw [e2, e1]
    simp [Device.submit, atSubmit]
  · rw [e2, e1]
    simp [Device.submit, atSubmit]
  · rw [e1]
    simp [Device.submit, atSubmit]
  · rw [e2, e1]
    simp [Device.submit, atSubmit]

/-- Witness of C7: the state left by `init` (empty buffers) and the state after a
first rectangle (buffers holding that rectangle) as the two prior states. -/
theorem render_rect_idempotent_witness :
    (renderOn sampleDefines (init ℚ sampleDefines 1280 720).1
        (init ℚ sampleDefines 1280 720).2 400 400 200 200 COLOR_BLUE).dvbs[
          (init ℚ sampleDefines 1280 720).1.m_vbh]?
      = some ⟨12, (quad (400 : ℚ) 400 200 200 COLOR_BLUE).map some⟩ ∧
    (renderOn sampleDefines (init ℚ sampleDefines 1280 720).1
        (renderOn sampleDefines (init ℚ sampleDefines 1280 720).1
          (init ℚ sampleDefines 1280 720).2 100 100 200 200 COLOR_RED)
        400 400 200 200 COLOR_BLUE).dvbs[(init ℚ sampleDefines 1280 720).1.m_vbh]?
      = (renderOn sampleDefines (init ℚ sampleDefines 1280 720).1
        (init ℚ sampleDefines 1280 720).2 400 400 200 200 COLOR_BLUE).dvbs[
          (init ℚ sampleDefines 1280 720).1.m_vbh]? :=
  have wit := render_rect_idempotent sampleDefines (init ℚ sampleDefines 1280 720).1
    (init ℚ sampleDefines 1280 720).2
    (renderOn sampleDefines (init ℚ sampleDefines 1280 720).1
      (init ℚ sampleDefines 1280 720).2 100 100 200 200 COLOR_RED)
    400 400 200 200 COLOR_BLUE
    (init_sharedBuffers ℚ sampleDefines 1280 720)
    (renderOn_sharedBuffers sampleDefines _ _ 100 100 200 200 COLOR_RED
      (init_sharedBuffers ℚ sampleDefines 1280 720))
  ⟨wit.1, wit.2.2.1⟩

/-! ### What a frame draws -/

/-- C6: in a frame of `update` on a state in which the handles name the shared
buffers, the vertex buffer holds the first quad when the first `submit` is called and
the second quad when the second `submit` is called; the frame draws the first
submission with the first quad's vertices and the second with the second quad's,
although by then the shared buffer holds the second quad only. -/
theorem submissions_draw_their_own_quads {α : Type} [Add α] [NatCast α] (K : Defines)
    (hd : Bool) (self : ExampleCubes) (ev : ProcessEvents) (d : Device α)
    (hx : ev.exit = false) (hb : SharedBuffers self d) :
    (statesAtSubmit K d (update K hd self ev).2.2).map
        (fun s => (s.dvbs[self.m_vbh]?).map (·.slots)) =
      [ some ((quad ((100 : Nat) : α) ((100 : Nat) : α) ((200 : Nat) : α) ((200 : Nat) : α)
          COLOR_RED).map some)
      , some ((quad ((400 : Nat) : α) ((400 : Nat) : α) ((200 : Nat) : α) ((200 : Nat) : α)
          COLOR_BLUE).map some) ] ∧
    (d.run K (update K hd self ev).2.2).presented.map (fun f => f.map (·.vertices)) =
      d.presented.map (fun f => f.map (·.vertices)) ++
      [d.captured.map (·.vertices) ++
        [ some ((quad ((100 : Nat) : α) ((100 : Nat) : α) ((200 : Nat) : α)
            ((200 : Nat) : α) COLOR_RED).map some)
        , some ((quad ((400 : Nat) : α) ((400 : Nat) : α) ((200 : Nat) : α)
            ((200 : Nat) : α) COLOR_BLUE).map some) ]] ∧
    ((d.run K (update K hd self ev).2.2).dvbs[self.m_vbh]?).map (·.slots) =
      some ((quad ((400 : Nat) : α) ((400 : Nat) : α) ((200 : Nat) : α) ((200 : Nat) : α)
        COLOR_BLUE).map some) := by
  obtain ⟨h1, h2, h3, -⟩ := update_frame K hd self ev d hx hb
  refine ⟨h1, ?_, h3⟩
  rw [h2]
  simp

/-- Witness of C6: the first frame after `init`, in binary32. -/
theorem submissions_draw_their_own_quads_witness :
    ((init F32 sampleDefines 1280 720).2.run sampleDefines
        (update sampleDefines false (init F32 sampleDefines 1280 720).1
          sampleEvents).2.2).presented.map (fun f => f.map (·.vertices)) =
      (init F32 sampleDefines 1280 720).2.presented.map (fun f => f.map (·.vertices)) ++
      [(init F32 sampleDefines 1280 720).2.captured.map (·.vertices) ++
        [ some ((quad ((100 : Nat) : F32) ((100 : Nat) : F32) ((200 : Nat) : F32)
            ((200 : Nat) : F32) COLOR_RED).map some)
        , some ((quad ((400 : Nat) : F32) ((400 : Nat) : F32) ((200 : Nat) : F32)
            ((200 : Nat) : F32) COLOR_BLUE).map some) ]] :=
  (submissions_draw_their_own_quads sampleDefines false
    (init F32 sampleDefines 1280 720).1 sampleEvents (init F32 sampleDefines 1280 720).2
    rfl (init_sharedBuffers F32 sampleDefines 1280 720)).2.1

/-- C10: read as the four `Uint8` components `(r, g, b, a)` of the `Color0`
attribute in little-endian byte order, `COLOR_RED` is `(255, 0, 0, 255)` and
`COLOR_BLUE` is `(0, 0, 255, 255)`; the layout declares `Color0` as 4 normalized
`Uint8` after the 8 bytes of the position; and in a frame of `update` without exit
request, on a state in which the handles name the shared buffers, the vertices
written are four of the first colour, then four of the second, and the two draw calls
the frame adds are drawn, in this order, with four vertices of the first colour and
with four vertices of the second. -/
theorem update_draws_red_then_blue {α : Type} [Add α] [NatCast α] (K : Defines)
    (hd : Bool) (self : ExampleCubes) (ev : ProcessEvents) (d : Device α)
    (hx : ev.exit = false) (hb : SharedBuffers self d) :
    colorComponents COLOR_RED = (255, 0, 0, 255) ∧
    colorComponents COLOR_BLUE = (0, 0, 255, 255) ∧
    PosColorVertex.init.attribs.filter (fun a => a.attrib = Attrib.Color0) =
      [⟨Attrib.Color0, 4, AttribType.Uint8, true, 8⟩] ∧
    (verticesWritten (update K hd self ev).2.2 : List (List (PosColorVertex α))).map
        (fun vs => vs.map fun v => colorComponents v.m_abgr) =
      [List.replicate 4 (255, 0, 0, 255), List.replicate 4 (0, 0, 255, 255)] ∧
    (d.run K (update K hd self ev).2.2).presented.map (fun f => f.map RenderedDraw.colors) =
      d.presented.map (fun f => f.map RenderedDraw.colors) ++
      [d.captured.map RenderedDraw.colors ++
        [List.replicate 4 (255, 0, 0, 255), List.replicate 4 (0, 0, 255, 255)]] := by
  have h1 : colorComponents COLOR_RED = (255, 0, 0, 255) := by decide
  have h2 : colorComponents COLOR_BLUE = (0, 0, 255, 255) := by decide
  refine ⟨h1, h2, by decide, ?_, ?_⟩
  · simp [update, hx, beginFrame, render_rect, verticesWritten, vertexUpdates, bgfx.copy,
      h1, h2]
  · rw [(update_frame K hd self ev d hx hb).2.1]
    simp [RenderedDraw.colors, quad, h1, h2]

/-- Witness of C10: the first frame after `init`, in binary32, draws two quads, the
first opaque red, the second opaque blue. -/
theorem update_draws_red_then_blue_witness :
    ((init F32 sampleDefines 1280 720).2.run sampleDefines
        (update sampleDefines false (init F32 sampleDefines 1280 720).1
          sampleEvents).2.2).presented.map (fun f => f.map RenderedDraw.colors) =
      [[List.replicate 4 (255, 0, 0, 255), List.replicate 4 (0, 0, 255, 255)]] :=
  (update_draws_red_then_blue sampleDefines false (init F32 sampleDefines 1280 720).1
    sampleEvents (init F32 sampleDefines 1280 720).2 rfl
    (init_sharedBuffers F32 sampleDefines 1280 720)).2.2.2.2

end Cubes
